import Mathlib

/-!
Verification of the sit-up counter's core analyzer (`pose_utils.py`).

The development shallowly embeds the `PoseState` enum, the geometry helpers of
`PoseAnalyzer`, and the `SitUpAnalyzer` class.  Pixel coordinates are `ℤ`
(the source casts landmark positions to `int`), Python's floor division `// 2`
is `Int.fdiv`, and the float angle/displacement arithmetic is modelled over
the ideal reals, with `atan2` as the principal argument of a complex number
and the Euclidean distance as `Real.sqrt`.  Counters are `ℕ` and the
`get_counts` accuracy is exact rational arithmetic with round-half-to-even at
two decimals, matching Python's `round`.
-/

namespace Situps

/-- The four analyzer states (`class PoseState` in `pose_utils.py`). -/
inductive PoseState where
  | DOWN
  | GOING_UP
  | UP
  | GOING_DOWN
deriving DecidableEq, Repr

/-- Feedback messages returned by `analyze_situp`; the source returns the
corresponding strings ("Good form", "Going up!", "Up position!",
"Going down!", "Correct rep! +1", "Incorrect form",
"Missing keypoints: [...]", and the initial "Starting..."). -/
inductive Feedback where
  | starting
  | goodForm
  | goingUp
  | upPosition
  | goingDown
  | correctRep
  | incorrectForm
  | missingKeypoints (ids : List ℕ)
deriving DecidableEq, Repr

/-- A per-frame keypoint dictionary.  `get_landmark_coordinates` only ever
stores the eight ids 11, 12 (shoulders), 23, 24 (hips), 25, 26 (knees),
27, 28 (ankles), each mapped to an integer pixel coordinate, so the dict is
a record of eight optional entries. -/
structure Keypoints where
  lm11 : Option (ℤ × ℤ) := none
  lm12 : Option (ℤ × ℤ) := none
  lm23 : Option (ℤ × ℤ) := none
  lm24 : Option (ℤ × ℤ) := none
  lm25 : Option (ℤ × ℤ) := none
  lm26 : Option (ℤ × ℤ) := none
  lm27 : Option (ℤ × ℤ) := none
  lm28 : Option (ℤ × ℤ) := none
deriving DecidableEq, Repr

/-- Dictionary lookup by landmark id (ids other than the eight stored ones
are never present). -/
def Keypoints.find (kp : Keypoints) (i : ℕ) : Option (ℤ × ℤ) :=
  if i = 11 then kp.lm11
  else if i = 12 then kp.lm12
  else if i = 23 then kp.lm23
  else if i = 24 then kp.lm24
  else if i = 25 then kp.lm25
  else if i = 26 then kp.lm26
  else if i = 27 then kp.lm27
  else if i = 28 then kp.lm28
  else none

/-- `idx in keypoints` in Python. -/
def Keypoints.has (kp : Keypoints) (i : ℕ) : Bool :=
  (kp.find i).isSome

/-- The eight ids that `get_landmark_coordinates` may store. -/
def trackedIds : List ℕ := [11, 12, 23, 24, 25, 26, 27, 28]

/-- The six ids the exercise requires (shoulders, hips, knees). -/
def requiredIds : List ℕ := [11, 12, 23, 24, 25, 26]

/-- `len(keypoints)`: the number of entries present in the dict. -/
def Keypoints.size (kp : Keypoints) : ℕ :=
  (trackedIds.filter fun i => kp.has i).length

/-- `keypoints.get(i, (0, 0))`: lookup with the `(0, 0)` placeholder. -/
def Keypoints.getD0 (kp : Keypoints) (i : ℕ) : ℤ × ℤ :=
  (kp.find i).getD (0, 0)

/-- Midpoint of a bilateral landmark pair; Python `(a + b) // 2` on ints is
floored division, i.e. `Int.fdiv`. -/
def midpt (a b : ℤ × ℤ) : ℤ × ℤ :=
  (Int.fdiv (a.1 + b.1) 2, Int.fdiv (a.2 + b.2) 2)

/-- Cast an integer pixel point to the real plane. -/
def toR (p : ℤ × ℤ) : ℝ × ℝ := ((p.1 : ℝ), (p.2 : ℝ))

/-- `np.arctan2 y x`: the principal argument of the point `(x, y)`, in
radians in `(-π, π]`, with `arctan2 0 0 = 0`. -/
noncomputable def arctan2 (y x : ℝ) : ℝ :=
  Complex.arg (x + y * Complex.I)

/-- `PoseAnalyzer.calculate_torso_angle`: the angle of the hip→shoulder
vector against the horizontal, `abs (np.degrees (np.arctan2 dy dx))`.  The
`knee` argument is accepted and ignored, as in the source. -/
noncomputable def calculate_torso_angle (shoulder hip _knee : ℝ × ℝ) : ℝ :=
  |arctan2 (shoulder.2 - hip.2) (shoulder.1 - hip.1) * (180 / Real.pi)|

/-- `RepData` dict: running extrema and displacement accumulators of the rep
in progress. -/
structure RepData where
  max_angle : ℝ
  min_angle : ℝ
  hip_movement : ℝ
  knee_movement : ℝ

/-- The mutable fields of a `SitUpAnalyzer` instance.  `initial_hip_y` and
`initial_knee` are `Option`s because the Python attributes do not exist until
the first rep starts (`hasattr` guards). -/
structure SitUpAnalyzer where
  state : PoseState
  correct_count : ℕ
  incorrect_count : ℕ
  rep_in_progress : Bool
  max_torso_angle : ℝ
  min_torso_angle : ℝ
  rep_data : RepData
  initial_hip_y : Option ℤ
  initial_knee : Option (ℤ × ℤ)
  last_feedback : Feedback
  missing_keypoints : List ℕ

/-- `SitUpAnalyzer.__init__`. -/
noncomputable def SitUpAnalyzer.init : SitUpAnalyzer where
  state := .DOWN
  correct_count := 0
  incorrect_count := 0
  rep_in_progress := false
  max_torso_angle := 0
  min_torso_angle := 180
  rep_data := ⟨0, 180, 0, 0⟩
  initial_hip_y := none
  initial_knee := none
  last_feedback := .starting
  missing_keypoints := []

/-- `self.UP_ANGLE_THRESHOLD`. -/
def UP_ANGLE_THRESHOLD : ℝ := 60

/-- `self.DOWN_ANGLE_THRESHOLD`. -/
def DOWN_ANGLE_THRESHOLD : ℝ := 40

/-- `self.CORRECT_ANGLE_RANGE`. -/
def CORRECT_ANGLE_RANGE : ℝ × ℝ := (60, 100)

/-- `self.HIP_MOVEMENT_THRESHOLD`. -/
noncomputable def HIP_MOVEMENT_THRESHOLD : ℝ := 0.15

/-- `self.KNEE_MOVEMENT_THRESHOLD`. -/
noncomputable def KNEE_MOVEMENT_THRESHOLD : ℝ := 0.08

/-- `SitUpAnalyzer._check_form_correctness`, a pure function of the closed
rep window. -/
noncomputable def _check_form_correctness (rd : RepData) : Bool :=
  if ¬ (CORRECT_ANGLE_RANGE.1 ≤ rd.max_angle ∧ rd.max_angle ≤ CORRECT_ANGLE_RANGE.2) then
    false
  else if rd.min_angle > DOWN_ANGLE_THRESHOLD + 15 then
    false
  else if rd.hip_movement > HIP_MOVEMENT_THRESHOLD then
    false
  else if rd.knee_movement > KNEE_MOVEMENT_THRESHOLD then
    false
  else
    true

/-- Midpoint of the two shoulders with `(0, 0)` placeholders, as computed at
the top of `analyze_situp`. -/
def midShoulder (kp : Keypoints) : ℤ × ℤ :=
  midpt (kp.getD0 11) (kp.getD0 12)

/-- Midpoint of the two hips with `(0, 0)` placeholders. -/
def midHip (kp : Keypoints) : ℤ × ℤ :=
  midpt (kp.getD0 23) (kp.getD0 24)

/-- Midpoint of the two knees with `(0, 0)` placeholders. -/
def midKnee (kp : Keypoints) : ℤ × ℤ :=
  midpt (kp.getD0 25) (kp.getD0 26)

/-- The torso angle `analyze_situp` derives from a processed frame. -/
noncomputable def torsoOf (kp : Keypoints) : ℝ :=
  calculate_torso_angle (toR (midShoulder kp)) (toR (midHip kp)) (toR (midKnee kp))

/-- The sorted list of absent required ids, as built by the loop in the
missing-keypoints branch of `analyze_situp`. -/
def missingOf (kp : Keypoints) : List ℕ :=
  requiredIds.filter fun i => ¬ kp.has i

/-- The min/max and displacement tracking applied to `self.rep_data` at the
top of `analyze_situp` whenever `rep_in_progress` holds (lines 152-164). -/
noncomputable def trackRep (a : SitUpAnalyzer) (kp : Keypoints) (frame_height : ℤ) : RepData :=
  if a.rep_in_progress then
    let torso_angle := torsoOf kp
    let hip := midHip kp
    let knee := midKnee kp
    let rd1 : RepData := { a.rep_data with
      max_angle := max a.rep_data.max_angle torso_angle,
      min_angle := min a.rep_data.min_angle torso_angle }
    let rd2 : RepData :=
      match a.initial_hip_y with
      | some ihy =>
        let hm := max rd1.hip_movement (|((hip.2 - ihy : ℤ) : ℝ)| / (frame_height : ℝ))
        { rd1 with hip_movement := hm }
      | none => rd1
    let rd3 : RepData :=
      match a.initial_knee with
      | some ik =>
        let km := max rd2.knee_movement
          (Real.sqrt (((knee.1 - ik.1 : ℤ) : ℝ) ^ 2 + ((knee.2 - ik.2 : ℤ) : ℝ) ^ 2) /
            (frame_height : ℝ))
        { rd2 with knee_movement := km }
      | none => rd2
    rd3
  else a.rep_data

/-- The state-machine block of `analyze_situp` (lines 166-211): given the
frame's torso angle, the hip and knee midpoints, and the already-tracked rep
data `rd0`, produce the updated analyzer, the feedback and the
`rep_completed` flag. -/
noncomputable def situpTransition (a : SitUpAnalyzer) (torso_angle : ℝ) (hip knee : ℤ × ℤ)
    (rd0 : RepData) : SitUpAnalyzer × Feedback × Bool :=
  match a.state with
  | .DOWN =>
    if torso_angle > UP_ANGLE_THRESHOLD then
      ({ a with state := .GOING_UP, rep_in_progress := true,
                initial_hip_y := some hip.2, initial_knee := some knee,
                rep_data := ⟨torso_angle, torso_angle, 0, 0⟩ }, .goingUp, false)
    else
      ({ a with rep_data := rd0 }, .goodForm, false)
  | .GOING_UP =>
    let rd1 := if torso_angle ≥ rd0.max_angle then { rd0 with max_angle := torso_angle } else rd0
    if torso_angle > UP_ANGLE_THRESHOLD + 5 then
      ({ a with state := .UP, rep_data := rd1 }, .upPosition, false)
    else
      ({ a with rep_data := rd1 }, .goodForm, false)
  | .UP =>
    if torso_angle < UP_ANGLE_THRESHOLD then
      ({ a with state := .GOING_DOWN, rep_data := rd0 }, .goingDown, false)
    else
      ({ a with rep_data := rd0 }, .goodForm, false)
  | .GOING_DOWN =>
    if torso_angle < DOWN_ANGLE_THRESHOLD then
      if _check_form_correctness rd0 then
        ({ a with state := .DOWN, rep_in_progress := false, rep_data := rd0,
                  correct_count := a.correct_count + 1 }, .correctRep, true)
      else
        ({ a with state := .DOWN, rep_in_progress := false, rep_data := rd0,
                  incorrect_count := a.incorrect_count + 1 }, .incorrectForm, true)
    else
      ({ a with rep_data := rd0 }, .goodForm, false)

/-- `SitUpAnalyzer.analyze_situp`.  Returns the updated analyzer together
with the source's return triple `(feedback, rep_completed, torso_angle)`. -/
noncomputable def analyze_situp (a : SitUpAnalyzer) (kp : Keypoints) (frame_height : ℤ) :
    SitUpAnalyzer × Feedback × Bool × ℝ :=
  if kp.size < 4 then
    ({ a with missing_keypoints := missingOf kp }, .missingKeypoints (missingOf kp), false, 0)
  else
    let torso_angle := torsoOf kp
    let rd0 := trackRep a kp frame_height
    let result := situpTransition a torso_angle (midHip kp) (midKnee kp) rd0
    ({ result.1 with last_feedback := result.2.1 }, result.2.1, result.2.2, torso_angle)

/-- One video frame's input to the analyzer: the keypoint dict and
`frame_shape[0]` (the pixel height). -/
structure Frame where
  keypoints : Keypoints
  frame_height : ℤ

/-- The analyzer-state part of one `analyze_situp` call. -/
noncomputable def stepA (a : SitUpAnalyzer) (f : Frame) : SitUpAnalyzer :=
  (analyze_situp a f.keypoints f.frame_height).1

/-- Folding a sequence of frames through the analyzer. -/
noncomputable def runA : SitUpAnalyzer → List Frame → SitUpAnalyzer
  | a, [] => a
  | a, f :: fs => runA (stepA a f) fs

/-- The number of `GOING_DOWN → DOWN` transitions taken along a frame
sequence. -/
noncomputable def countCloses : SitUpAnalyzer → List Frame → ℕ
  | _, [] => 0
  | a, f :: fs =>
    (if a.state = .GOING_DOWN ∧ (stepA a f).state = .DOWN then 1 else 0) +
      countCloses (stepA a f) fs

/-- Round-half-to-even to an integer, Python's `round` tie behaviour. -/
def roundHalfEven (q : ℚ) : ℤ :=
  let n := ⌊q⌋
  if q - n < 1 / 2 then n
  else if q - n > 1 / 2 then n + 1
  else if Even n then n else n + 1

/-- `round(x, 2)`: round-half-to-even at two decimal places. -/
def round2 (q : ℚ) : ℚ :=
  (roundHalfEven (q * 100) : ℚ) / 100

/-- The record returned by `get_counts`. -/
structure Counts where
  correct : ℕ
  incorrect : ℕ
  total : ℕ
  accuracy : ℚ
deriving DecidableEq, Repr

/-- `SitUpAnalyzer.get_counts`: a pure read of the two counters. -/
def get_counts (a : SitUpAnalyzer) : Counts :=
  let total := a.correct_count + a.incorrect_count
  let accuracy : ℚ :=
    if total > 0 then round2 ((a.correct_count : ℚ) / (total : ℚ) * 100) else 0
  ⟨a.correct_count, a.incorrect_count, total, accuracy⟩

/-- The record returned by `get_debug_info`. -/
structure DebugInfo where
  missing_keypoints : List ℕ
  state : PoseState
  rep_in_progress : Bool
  last_feedback : Feedback
deriving DecidableEq, Repr

/-- `SitUpAnalyzer.get_debug_info`: a pure read of the diagnostic fields. -/
def get_debug_info (a : SitUpAnalyzer) : DebugInfo :=
  ⟨a.missing_keypoints, a.state, a.rep_in_progress, a.last_feedback⟩

/-- Modelled from the spec: `reset_counts` is invoked on the analyzer by the
hosting layer's reset route (`app.py`), but `pose_utils.py` defines no such
method; the spec's control surface describes it as "reset() (zero all
state)", returning every field to its freshly-constructed value. -/
noncomputable def reset_counts (_a : SitUpAnalyzer) : SitUpAnalyzer :=
  SitUpAnalyzer.init


/-! ### Basic facts about the geometry layer -/

lemma abs_arctan2_le_pi (y x : ℝ) : |arctan2 y x| ≤ Real.pi :=
  Complex.abs_arg_le_pi _

lemma arctan2_zero_zero : arctan2 0 0 = 0 := by
  unfold arctan2
  simp

lemma arctan2_of_nonneg (x : ℝ) (hx : 0 ≤ x) : arctan2 0 x = 0 := by
  unfold arctan2
  rw [show ((x:ℂ) + (0:ℝ) * Complex.I) = (x:ℂ) by simp]
  exact Complex.arg_ofReal_of_nonneg hx

lemma arctan2_vertical (y : ℝ) (hy : 0 < y) : arctan2 y 0 = Real.pi / 2 := by
  unfold arctan2
  rw [show (((0:ℝ):ℂ) + (y:ℂ) * Complex.I) = (y:ℝ) * Complex.I by push_cast; ring]
  rw [Complex.arg_real_mul _ hy, Complex.arg_I]

lemma calculate_torso_angle_nonneg (s h k : ℝ × ℝ) : 0 ≤ calculate_torso_angle s h k :=
  abs_nonneg _

lemma calculate_torso_angle_le (s h k : ℝ × ℝ) : calculate_torso_angle s h k ≤ 180 := by
  unfold calculate_torso_angle
  rw [abs_mul]
  have h1 : |arctan2 (s.2 - h.2) (s.1 - h.1)| ≤ Real.pi := abs_arctan2_le_pi _ _
  have h2 : |(180 / Real.pi : ℝ)| = 180 / Real.pi := abs_of_nonneg (by positivity)
  rw [h2]
  have h3 : |arctan2 (s.2 - h.2) (s.1 - h.1)| * (180 / Real.pi) ≤ Real.pi * (180 / Real.pi) :=
    mul_le_mul_of_nonneg_right h1 (by positivity)
  refine h3.trans ?thePiBound
  have hπ : Real.pi ≠ 0 := Real.pi_ne_zero
  field_simp

/-! ### Concrete frames used as witnesses -/

/-- All six required landmarks present, torso vector `(0, 100)`: angle 90°. -/
def kp90 : Keypoints :=
  { lm11 := some (0, 100), lm12 := some (0, 100), lm23 := some (0, 0), lm24 := some (0, 0),
    lm25 := some (0, 0), lm26 := some (0, 0) }

/-- All six required landmarks present, torso vector `(100, 0)`: angle 0°. -/
def kp0 : Keypoints :=
  { lm11 := some (100, 0), lm12 := some (100, 0), lm23 := some (0, 0), lm24 := some (0, 0),
    lm25 := some (0, 0), lm26 := some (0, 0) }

/-- Only the shoulders and the ankles: four entries in the dict, but just two
of the six required landmarks. -/
def kpAnkles : Keypoints :=
  { lm11 := some (0, 100), lm12 := some (0, 100), lm27 := some (0, 0), lm28 := some (0, 0) }

/-- A single landmark: rejected as missing keypoints. -/
def kpOne : Keypoints :=
  { lm11 := some (5, 5) }

lemma torsoOf_kp90 : torsoOf kp90 = 90 := by
  have hms : midShoulder kp90 = (0, 100) := rfl
  have hmh : midHip kp90 = (0, 0) := rfl
  have hmk : midKnee kp90 = (0, 0) := rfl
  unfold torsoOf
  rw [hms, hmh, hmk]
  unfold calculate_torso_angle toR
  norm_num
  rw [arctan2_vertical 100 (by norm_num)]
  rw [abs_of_nonneg (by positivity)]
  have hπ : Real.pi ≠ 0 := Real.pi_ne_zero
  field_simp
  ring

lemma torsoOf_kp0 : torsoOf kp0 = 0 := by
  have hms : midShoulder kp0 = (100, 0) := rfl
  have hmh : midHip kp0 = (0, 0) := rfl
  have hmk : midKnee kp0 = (0, 0) := rfl
  unfold torsoOf
  rw [hms, hmh, hmk]
  unfold calculate_torso_angle toR
  norm_num
  rw [arctan2_of_nonneg 100 (by norm_num)]
  simp

lemma torsoOf_kpAnkles : torsoOf kpAnkles = 90 := by
  have hms : midShoulder kpAnkles = (0, 100) := rfl
  have hmh : midHip kpAnkles = (0, 0) := rfl
  have hmk : midKnee kpAnkles = (0, 0) := rfl
  unfold torsoOf
  rw [hms, hmh, hmk]
  unfold calculate_torso_angle toR
  norm_num
  rw [arctan2_vertical 100 (by norm_num)]
  rw [abs_of_nonneg (by positivity)]
  have hπ : Real.pi ≠ 0 := Real.pi_ne_zero
  field_simp
  ring

/-! ### Unfolding lemmas for `analyze_situp` -/

lemma analyze_situp_missing (a : SitUpAnalyzer) (kp : Keypoints) (fh : ℤ) (h : kp.size < 4) :
    analyze_situp a kp fh =
      ({ a with missing_keypoints := missingOf kp }, .missingKeypoints (missingOf kp), false, 0) := by
  unfold analyze_situp
  rw [if_pos h]

lemma analyze_situp_processed (a : SitUpAnalyzer) (kp : Keypoints) (fh : ℤ) (h : ¬ kp.size < 4) :
    analyze_situp a kp fh =
      ({ (situpTransition a (torsoOf kp) (midHip kp) (midKnee kp) (trackRep a kp fh)).1 with
          last_feedback :=
            (situpTransition a (torsoOf kp) (midHip kp) (midKnee kp) (trackRep a kp fh)).2.1 },
        (situpTransition a (torsoOf kp) (midHip kp) (midKnee kp) (trackRep a kp fh)).2.1,
        (situpTransition a (torsoOf kp) (midHip kp) (midKnee kp) (trackRep a kp fh)).2.2,
        torsoOf kp) := by
  unfold analyze_situp
  rw [if_neg h]

lemma situpTransition_DOWN (a : SitUpAnalyzer) (t : ℝ) (hip knee : ℤ × ℤ) (rd0 : RepData)
    (hst : a.state = .DOWN) :
    situpTransition a t hip knee rd0 =
      if t > UP_ANGLE_THRESHOLD then
        ({ a with state := .GOING_UP, rep_in_progress := true, initial_hip_y := some hip.2,
                  initial_knee := some knee, rep_data := ⟨t, t, 0, 0⟩ }, .goingUp, false)
      else
        ({ a with rep_data := rd0 }, .goodForm, false) := by
  unfold situpTransition
  rw [hst]

lemma situpTransition_GOING_UP (a : SitUpAnalyzer) (t : ℝ) (hip knee : ℤ × ℤ) (rd0 : RepData)
    (hst : a.state = .GOING_UP) :
    situpTransition a t hip knee rd0 =
      (let rd1 := if t ≥ rd0.max_angle then { rd0 with max_angle := t } else rd0
       if t > UP_ANGLE_THRESHOLD + 5 then
        ({ a with state := .UP, rep_data := rd1 }, .upPosition, false)
       else
        ({ a with rep_data := rd1 }, .goodForm, false)) := by
  unfold situpTransition
  rw [hst]

lemma situpTransition_UP (a : SitUpAnalyzer) (t : ℝ) (hip knee : ℤ × ℤ) (rd0 : RepData)
    (hst : a.state = .UP) :
    situpTransition a t hip knee rd0 =
      if t < UP_ANGLE_THRESHOLD then
        ({ a with state := .GOING_DOWN, rep_data := rd0 }, .goingDown, false)
      else
        ({ a with rep_data := rd0 }, .goodForm, false) := by
  unfold situpTransition
  rw [hst]

lemma situpTransition_GOING_DOWN (a : SitUpAnalyzer) (t : ℝ) (hip knee : ℤ × ℤ) (rd0 : RepData)
    (hst : a.state = .GOING_DOWN) :
    situpTransition a t hip knee rd0 =
      if t < DOWN_ANGLE_THRESHOLD then
        if _check_form_correctness rd0 then
          ({ a with state := .DOWN, rep_in_progress := false, rep_data := rd0,
                    correct_count := a.correct_count + 1 }, .correctRep, true)
        else
          ({ a with state := .DOWN, rep_in_progress := false, rep_data := rd0,
                    incorrect_count := a.incorrect_count + 1 }, .incorrectForm, true)
      else
        ({ a with rep_data := rd0 }, .goodForm, false) := by
  unfold situpTransition
  rw [hst]

/-! ### C1: the rep state machine -/

/-- C1: the rep state machine is a strict four-state cycle starting in `DOWN`,
advanced once per frame by `analyze_situp`: in `DOWN`, an angle above 60 moves
to `GOING_UP` and opens a rep window seeded with `max_angle = min_angle = `
the current angle, the captured hip/knee anchors and zeroed displacement
accumulators; in `GOING_UP`, an angle above 65 moves to `UP`; in `UP`, an
angle below 60 moves to `GOING_DOWN`; in `GOING_DOWN`, an angle below 40
moves to `DOWN`, marks the rep completed and clears `rep_in_progress`; in
every other case the state is unchanged. -/
theorem C1_situp_state_machine (a : SitUpAnalyzer) (kp : Keypoints) (fh : ℤ)
    (hproc : ¬ kp.size < 4) :
    SitUpAnalyzer.init.state = PoseState.DOWN ∧
    ((a.state = PoseState.DOWN →
        (torsoOf kp > 60 →
          (analyze_situp a kp fh).1.state = PoseState.GOING_UP ∧
          (analyze_situp a kp fh).1.rep_data.max_angle = torsoOf kp ∧
          (analyze_situp a kp fh).1.rep_data.min_angle = torsoOf kp ∧
          (analyze_situp a kp fh).1.rep_data.hip_movement = 0 ∧
          (analyze_situp a kp fh).1.rep_data.knee_movement = 0 ∧
          (analyze_situp a kp fh).1.initial_hip_y = some (midHip kp).2 ∧
          (analyze_situp a kp fh).1.initial_knee = some (midKnee kp) ∧
          (analyze_situp a kp fh).1.rep_in_progress = true) ∧
        (¬ torsoOf kp > 60 → (analyze_situp a kp fh).1.state = PoseState.DOWN)) ∧
     (a.state = PoseState.GOING_UP →
        (torsoOf kp > 65 → (analyze_situp a kp fh).1.state = PoseState.UP) ∧
        (¬ torsoOf kp > 65 → (analyze_situp a kp fh).1.state = PoseState.GOING_UP)) ∧
     (a.state = PoseState.UP →
        (torsoOf kp < 60 → (analyze_situp a kp fh).1.state = PoseState.GOING_DOWN) ∧
        (¬ torsoOf kp < 60 → (analyze_situp a kp fh).1.state = PoseState.UP)) ∧
     (a.state = PoseState.GOING_DOWN →
        (torsoOf kp < 40 →
          (analyze_situp a kp fh).1.state = PoseState.DOWN ∧
          (analyze_situp a kp fh).2.2.1 = true ∧
          (analyze_situp a kp fh).1.rep_in_progress = false) ∧
        (¬ torsoOf kp < 40 → (analyze_situp a kp fh).1.state = PoseState.GOING_DOWN))) := by
  rw [analyze_situp_processed a kp fh hproc]
  refine ⟨rfl, ?hDown, ?hGoingUp, ?hUp, ?hGoingDown⟩
  case hDown =>
    intro hst
    rw [situpTransition_DOWN _ _ _ _ _ hst]
    simp only [UP_ANGLE_THRESHOLD]
    constructor
    · intro ht
      rw [if_pos ht]
      exact ⟨rfl, rfl, rfl, rfl, rfl, rfl, rfl, rfl⟩
    · intro ht
      rw [if_neg ht]
      exact hst
  case hGoingUp =>
    intro hst
    rw [situpTransition_GOING_UP _ _ _ _ _ hst]
    simp only [UP_ANGLE_THRESHOLD]
    simp only [show ((60:ℝ) + 5) = 65 from by norm_num]
    constructor
    · intro ht
      rw [if_pos ht]
    · intro ht
      rw [if_neg ht]
      exact hst
  case hUp =>
    intro hst
    rw [situpTransition_UP _ _ _ _ _ hst]
    simp only [UP_ANGLE_THRESHOLD]
    constructor
    · intro ht
      rw [if_pos ht]
    · intro ht
      rw [if_neg ht]
      exact hst
  case hGoingDown =>
    intro hst
    rw [situpTransition_GOING_DOWN _ _ _ _ _ hst]
    simp only [DOWN_ANGLE_THRESHOLD]
    constructor
    · intro ht
      rw [if_pos ht]
      by_cases hc : _check_form_correctness (trackRep a kp fh) = true
      · rw [if_pos hc]
        exact ⟨rfl, rfl, rfl⟩
      · rw [if_neg hc]
        exact ⟨rfl, rfl, rfl⟩
    · intro ht
      rw [if_neg ht]
      exact hst

/-- Witness for C1: on a fresh analyzer, a full frame with torso angle 90
fires the `DOWN → GOING_UP` transition. -/
theorem C1_situp_state_machine_witness :
    (analyze_situp SitUpAnalyzer.init kp90 240).1.state = PoseState.GOING_UP := by
  have H := C1_situp_state_machine SitUpAnalyzer.init kp90 240 (by decide)
  have h60 : torsoOf kp90 > 60 := by
    rw [torsoOf_kp90]
    norm_num
  exact ((H.2.1 rfl).1 h60).1

/-! ### C4: missing-keypoint frames -/

/-- C4: a frame judged insufficient (fewer than 4 dict entries) yields a
"missing keypoints" feedback listing exactly the absent required ids, leaves
the machine state, both counters, the rep window and its anchors untouched,
and reports no completed rep.  The embedding is a total function, so no
exception can be raised. -/
theorem C4_missing_keypoints (a : SitUpAnalyzer) (kp : Keypoints) (fh : ℤ)
    (hmiss : kp.size < 4) :
    (analyze_situp a kp fh).2.1 = Feedback.missingKeypoints (missingOf kp) ∧
    (∀ i, i ∈ missingOf kp ↔ (i ∈ requiredIds ∧ ¬ kp.has i = true)) ∧
    (analyze_situp a kp fh).1.state = a.state ∧
    (analyze_situp a kp fh).1.correct_count = a.correct_count ∧
    (analyze_situp a kp fh).1.incorrect_count = a.incorrect_count ∧
    (analyze_situp a kp fh).1.rep_in_progress = a.rep_in_progress ∧
    (analyze_situp a kp fh).1.rep_data = a.rep_data ∧
    (analyze_situp a kp fh).1.initial_hip_y = a.initial_hip_y ∧
    (analyze_situp a kp fh).1.initial_knee = a.initial_knee ∧
    (analyze_situp a kp fh).2.2.1 = false := by
  rw [analyze_situp_missing a kp fh hmiss]
  refine ⟨rfl, ?_, rfl, rfl, rfl, rfl, rfl, rfl, rfl, rfl⟩
  intro i
  simp [missingOf, List.mem_filter]

/-- Witness for C4: a frame with a single landmark is rejected with the other
five required ids reported missing, on an unchanged analyzer. -/
theorem C4_missing_keypoints_witness :
    kpOne.size < 4 ∧
    (analyze_situp SitUpAnalyzer.init kpOne 240).2.1
      = Feedback.missingKeypoints (missingOf kpOne) ∧
    (analyze_situp SitUpAnalyzer.init kpOne 240).1.state = SitUpAnalyzer.init.state :=
  ⟨by decide, (C4_missing_keypoints SitUpAnalyzer.init kpOne 240 (by decide)).1,
    (C4_missing_keypoints SitUpAnalyzer.init kpOne 240 (by decide)).2.2.1⟩

/-! ### C5: the torso angle -/

/-- C5: `calculate_torso_angle` is the absolute value of
`atan2 (shoulder.y - hip.y) (shoulder.x - hip.x)` converted to degrees, lies
in `[0, 180]`, does not depend on the knee argument, and a degenerate
zero-length torso vector (shoulder = hip) yields the neutral value 0 (the
embedding is total, so nothing is raised and no NaN appears). -/
theorem C5_torso_angle (s h k k2 : ℝ × ℝ) :
    calculate_torso_angle s h k =
      |Complex.arg ((s.1 - h.1 : ℝ) + (s.2 - h.2 : ℝ) * Complex.I) * (180 / Real.pi)| ∧
    0 ≤ calculate_torso_angle s h k ∧
    calculate_torso_angle s h k ≤ 180 ∧
    calculate_torso_angle s h k = calculate_torso_angle s h k2 ∧
    calculate_torso_angle h h k = 0 := by
  refine ⟨rfl, calculate_torso_angle_nonneg s h k, calculate_torso_angle_le s h k, rfl, ?_⟩
  unfold calculate_torso_angle
  simp [sub_self, arctan2_zero_zero]

/-! ### C7: reset semantics (spec-modelled) -/

/-- C7: after any history, `reset_counts` yields the `DOWN` state with zero
counters and no rep in progress, and the analyzer afterwards behaves exactly
as a freshly constructed one on every subsequent frame. -/
theorem C7_reset (a : SitUpAnalyzer) :
    (reset_counts a).state = PoseState.DOWN ∧
    (reset_counts a).correct_count = 0 ∧
    (reset_counts a).incorrect_count = 0 ∧
    (reset_counts a).rep_in_progress = false ∧
    (∀ kp fh, analyze_situp (reset_counts a) kp fh = analyze_situp SitUpAnalyzer.init kp fh) ∧
    get_counts (reset_counts a) = get_counts SitUpAnalyzer.init :=
  ⟨rfl, rfl, rfl, rfl, fun _ _ => rfl, rfl⟩

/-! ### C9: `get_counts` -/

/-- C9: `get_counts` is a pure read returning `total = correct + incorrect`,
with `accuracy = round2 (100 * correct / total)` when `total > 0` and
`accuracy = 0` when `total = 0`, so it never divides by zero. -/
theorem C9_get_counts (a : SitUpAnalyzer) :
    (get_counts a).correct = a.correct_count ∧
    (get_counts a).incorrect = a.incorrect_count ∧
    (get_counts a).total = a.correct_count + a.incorrect_count ∧
    (a.correct_count + a.incorrect_count = 0 → (get_counts a).accuracy = 0) ∧
    (0 < a.correct_count + a.incorrect_count →
      (get_counts a).accuracy =
        round2 (100 * (a.correct_count : ℚ) /
          ((a.correct_count + a.incorrect_count : ℕ) : ℚ))) := by
  refine ⟨rfl, rfl, rfl, ?_, ?_⟩
  · intro h
    unfold get_counts
    simp [h]
  · intro h
    unfold get_counts
    simp only [gt_iff_lt, h, if_true]
    congr 1
    push_cast
    ring

/-- An analyzer that has seen one correct and two incorrect reps. -/
noncomputable def aCounts : SitUpAnalyzer :=
  { SitUpAnalyzer.init with correct_count := 1, incorrect_count := 2 }

/-- Witness for C9 at one correct rep out of three. -/
theorem C9_get_counts_witness :
    0 < aCounts.correct_count + aCounts.incorrect_count ∧
    (get_counts aCounts).accuracy =
      round2 (100 * (aCounts.correct_count : ℚ) /
        ((aCounts.correct_count + aCounts.incorrect_count : ℕ) : ℚ)) :=
  ⟨by decide, (C9_get_counts aCounts).2.2.2.2 (by decide)⟩

/-! ### C2: the form-correctness gates -/

/-- C2: a closed rep window is judged "correct" iff all four gates pass:
`max_angle ∈ [60, 100]` (both ends inclusive), `min_angle ≤ 55`,
normalized hip displacement `≤ 0.15` and normalized knee displacement
`≤ 0.08`; and a completed rep increments exactly one of the two counters,
according to the verdict. -/
theorem C2_form_correctness :
    (∀ rd : RepData, _check_form_correctness rd = true ↔
      (60 ≤ rd.max_angle ∧ rd.max_angle ≤ 100 ∧ rd.min_angle ≤ 55 ∧
       rd.hip_movement ≤ 0.15 ∧ rd.knee_movement ≤ 0.08)) ∧
    (∀ (a : SitUpAnalyzer) (kp : Keypoints) (fh : ℤ),
      ¬ kp.size < 4 → a.state = PoseState.GOING_DOWN → torsoOf kp < 40 →
      (analyze_situp a kp fh).2.2.1 = true ∧
      (_check_form_correctness (analyze_situp a kp fh).1.rep_data = true →
        (analyze_situp a kp fh).1.correct_count = a.correct_count + 1 ∧
        (analyze_situp a kp fh).1.incorrect_count = a.incorrect_count) ∧
      (_check_form_correctness (analyze_situp a kp fh).1.rep_data = false →
        (analyze_situp a kp fh).1.correct_count = a.correct_count ∧
        (analyze_situp a kp fh).1.incorrect_count = a.incorrect_count + 1)) := by
  constructor
  · intro rd
    unfold _check_form_correctness
    simp only [CORRECT_ANGLE_RANGE, DOWN_ANGLE_THRESHOLD, HIP_MOVEMENT_THRESHOLD,
      KNEE_MOVEMENT_THRESHOLD, show ((40:ℝ) + 15) = 55 from by norm_num]
    split_ifs with h1 h2 h3 h4
    · refine iff_of_false (by simp) ?_
      rintro ⟨-, -, g3, -, -⟩
      linarith
    · refine iff_of_false (by simp) ?_
      rintro ⟨-, -, -, g4, -⟩
      linarith
    · refine iff_of_false (by simp) ?_
      rintro ⟨-, -, -, -, g5⟩
      linarith
    · refine iff_of_true rfl ?_
      push_neg at h2 h3 h4
      exact ⟨h1.1, h1.2, h2, h3, h4⟩
    · refine iff_of_false (by simp) ?_
      rintro ⟨g1, g2, -, -, -⟩
      exact h1 ⟨g1, g2⟩
  · intro a kp fh hproc hst ht
    rw [analyze_situp_processed a kp fh hproc]
    rw [situpTransition_GOING_DOWN _ _ _ _ _ hst]
    simp only [DOWN_ANGLE_THRESHOLD]
    rw [if_pos ht]
    by_cases hc : _check_form_correctness (trackRep a kp fh) = true
    · rw [if_pos hc]
      refine ⟨rfl, fun _ => ⟨rfl, rfl⟩, fun hfalse => ?_⟩
      dsimp only at hfalse
      rw [hc] at hfalse
      exact Bool.noConfusion hfalse
    · rw [if_neg hc]
      rw [Bool.not_eq_true] at hc
      refine ⟨rfl, fun htrue => ?_, fun _ => ⟨rfl, rfl⟩⟩
      dsimp only at htrue
      rw [hc] at htrue
      exact Bool.noConfusion htrue

/-- An analyzer mid-rep in the `GOING_DOWN` state with a clean rep window. -/
noncomputable def aGoingDown : SitUpAnalyzer :=
  { SitUpAnalyzer.init with
      state := .GOING_DOWN, rep_in_progress := true,
      rep_data := ⟨90, 30, 0, 0⟩, initial_hip_y := some 0, initial_knee := some (0, 0) }

/-- Witness for C2: a window with max 90, min 30 and no drift passes the
gates, and a closing frame reports a completed rep. -/
theorem C2_form_correctness_witness :
    _check_form_correctness ⟨90, 30, 0, 0⟩ = true ∧
    (analyze_situp aGoingDown kp0 240).2.2.1 = true := by
  constructor
  · exact (C2_form_correctness.1 ⟨90, 30, 0, 0⟩).mpr (by norm_num)
  · refine (C2_form_correctness.2 aGoingDown kp0 240 (by decide) rfl ?_).1
    rw [torsoOf_kp0]
    norm_num

/-! ### C8: monotone extrema inside an open rep window -/

lemma trackRep_extrema (a : SitUpAnalyzer) (kp : Keypoints) (fh : ℤ)
    (hrip : a.rep_in_progress = true) :
    a.rep_data.max_angle ≤ (trackRep a kp fh).max_angle ∧
    (trackRep a kp fh).min_angle ≤ a.rep_data.min_angle := by
  unfold trackRep
  rw [if_pos hrip]
  cases a.initial_hip_y <;> cases a.initial_knee <;>
    exact ⟨le_max_left _ _, min_le_left _ _⟩

lemma situpTransition_rep_data_GOING_UP (a : SitUpAnalyzer) (t : ℝ) (hip knee : ℤ × ℤ)
    (rd0 : RepData) (hst : a.state = .GOING_UP) :
    (situpTransition a t hip knee rd0).1.rep_data =
      if t ≥ rd0.max_angle then { rd0 with max_angle := t } else rd0 := by
  rw [situpTransition_GOING_UP _ _ _ _ _ hst]
  dsimp only
  split_ifs <;> rfl

lemma situpTransition_rep_data_UP (a : SitUpAnalyzer) (t : ℝ) (hip knee : ℤ × ℤ)
    (rd0 : RepData) (hst : a.state = .UP) :
    (situpTransition a t hip knee rd0).1.rep_data = rd0 := by
  rw [situpTransition_UP _ _ _ _ _ hst]
  split_ifs <;> rfl

lemma situpTransition_rep_data_GOING_DOWN (a : SitUpAnalyzer) (t : ℝ) (hip knee : ℤ × ℤ)
    (rd0 : RepData) (hst : a.state = .GOING_DOWN) :
    (situpTransition a t hip knee rd0).1.rep_data = rd0 := by
  rw [situpTransition_GOING_DOWN _ _ _ _ _ hst]
  split_ifs <;> rfl

/-- C8: while a rep window is open (rep in progress, state not `DOWN`), a
processed frame can only raise `max_angle` and lower `min_angle`. -/
theorem C8_monotone_extrema (a : SitUpAnalyzer) (kp : Keypoints) (fh : ℤ)
    (hproc : ¬ kp.size < 4) (hrip : a.rep_in_progress = true)
    (hst : a.state ≠ PoseState.DOWN) :
    a.rep_data.max_angle ≤ (analyze_situp a kp fh).1.rep_data.max_angle ∧
    (analyze_situp a kp fh).1.rep_data.min_angle ≤ a.rep_data.min_angle := by
  obtain ⟨hmax0, hmin0⟩ := trackRep_extrema a kp fh hrip
  rw [analyze_situp_processed a kp fh hproc]
  dsimp only
  cases hs : a.state with
  | DOWN => exact absurd hs hst
  | GOING_UP =>
    rw [situpTransition_rep_data_GOING_UP _ _ _ _ _ hs]
    by_cases hge : torsoOf kp ≥ (trackRep a kp fh).max_angle
    · rw [if_pos hge]
      exact ⟨hmax0.trans hge, hmin0⟩
    · rw [if_neg hge]
      exact ⟨hmax0, hmin0⟩
  | UP =>
    rw [situpTransition_rep_data_UP _ _ _ _ _ hs]
    exact ⟨hmax0, hmin0⟩
  | GOING_DOWN =>
    rw [situpTransition_rep_data_GOING_DOWN _ _ _ _ _ hs]
    exact ⟨hmax0, hmin0⟩

/-- An analyzer mid-rep in the `GOING_UP` state. -/
noncomputable def aGoingUp : SitUpAnalyzer :=
  { SitUpAnalyzer.init with
      state := .GOING_UP, rep_in_progress := true,
      rep_data := ⟨50, 50, 0, 0⟩, initial_hip_y := some 0, initial_knee := some (0, 0) }

/-- Witness for C8 on a concrete mid-rep frame. -/
theorem C8_monotone_extrema_witness :
    aGoingUp.rep_data.max_angle ≤ (analyze_situp aGoingUp kp90 240).1.rep_data.max_angle ∧
    (analyze_situp aGoingUp kp90 240).1.rep_data.min_angle ≤ aGoingUp.rep_data.min_angle :=
  C8_monotone_extrema aGoingUp kp90 240 (by decide) rfl (by decide)

/-! ### C10: `rep_in_progress` stays in sync with the state -/

lemma stepA_inv (a : SitUpAnalyzer) (f : Frame)
    (h : a.rep_in_progress = true ↔ a.state ≠ PoseState.DOWN) :
    (stepA a f).rep_in_progress = true ↔ (stepA a f).state ≠ PoseState.DOWN := by
  unfold stepA
  by_cases hkp : f.keypoints.size < 4
  · rw [analyze_situp_missing _ _ _ hkp]
    exact h
  · rw [analyze_situp_processed _ _ _ hkp]
    dsimp only
    cases hs : a.state with
    | DOWN =>
      rw [situpTransition_DOWN _ _ _ _ _ hs]
      by_cases ht : torsoOf f.keypoints > UP_ANGLE_THRESHOLD
      · rw [if_pos ht]
        simp
      · rw [if_neg ht]
        exact h
    | GOING_UP =>
      have hr : a.rep_in_progress = true :=
        h.mpr (by rw [hs]; exact fun hc => PoseState.noConfusion hc)
      rw [situpTransition_GOING_UP _ _ _ _ _ hs]
      dsimp only
      by_cases ht : torsoOf f.keypoints > UP_ANGLE_THRESHOLD + 5
      · rw [if_pos ht]
        simp [hr]
      · rw [if_neg ht]
        simp [hr, hs]
    | UP =>
      have hr : a.rep_in_progress = true :=
        h.mpr (by rw [hs]; exact fun hc => PoseState.noConfusion hc)
      rw [situpTransition_UP _ _ _ _ _ hs]
      by_cases ht : torsoOf f.keypoints < UP_ANGLE_THRESHOLD
      · rw [if_pos ht]
        simp [hr]
      · rw [if_neg ht]
        simp [hr, hs]
    | GOING_DOWN =>
      have hr : a.rep_in_progress = true :=
        h.mpr (by rw [hs]; exact fun hc => PoseState.noConfusion hc)
      rw [situpTransition_GOING_DOWN _ _ _ _ _ hs]
      by_cases ht : torsoOf f.keypoints < DOWN_ANGLE_THRESHOLD
      · rw [if_pos ht]
        by_cases hc : _check_form_correctness (trackRep a f.keypoints f.frame_height) = true
        · rw [if_pos hc]
          simp
        · rw [if_neg hc]
          simp
      · rw [if_neg ht]
        simp [hr, hs]

/-- C10: in every state reachable from a fresh analyzer, `rep_in_progress`
holds exactly when the machine state is not `DOWN`: the redundant flag never
goes out of sync with the state enum. -/
theorem C10_rep_in_progress_sync (fs : List Frame) :
    ((runA SitUpAnalyzer.init fs).rep_in_progress = true ↔
      (runA SitUpAnalyzer.init fs).state ≠ PoseState.DOWN) := by
  suffices H : ∀ a : SitUpAnalyzer, (a.rep_in_progress = true ↔ a.state ≠ PoseState.DOWN) →
      ((runA a fs).rep_in_progress = true ↔ (runA a fs).state ≠ PoseState.DOWN) by
    exact H SitUpAnalyzer.init (by simp [SitUpAnalyzer.init])
  induction fs with
  | nil => exact fun a h => h
  | cons f fs ih =>
    intro a h
    simp only [runA]
    exact ih (stepA a f) (stepA_inv a f h)

/-! ### C3: every closed cycle bumps exactly one counter -/

lemma stepA_counters (a : SitUpAnalyzer) (f : Frame) :
    (stepA a f).correct_count + (stepA a f).incorrect_count =
      a.correct_count + a.incorrect_count +
        (if a.state = PoseState.GOING_DOWN ∧ (stepA a f).state = PoseState.DOWN
          then 1 else 0) := by
  unfold stepA
  by_cases hkp : f.keypoints.size < 4
  · rw [analyze_situp_missing _ _ _ hkp]
    dsimp only
    rw [if_neg]
    · omega
    · rintro ⟨hg, hd⟩
      rw [hg] at hd
      exact PoseState.noConfusion hd
  · rw [analyze_situp_processed _ _ _ hkp]
    dsimp only
    cases hs : a.state with
    | DOWN =>
      rw [situpTransition_DOWN _ _ _ _ _ hs]
      split_ifs <;> simp_all
    | GOING_UP =>
      rw [situpTransition_GOING_UP _ _ _ _ _ hs]
      dsimp only
      split_ifs <;> simp_all
    | UP =>
      rw [situpTransition_UP _ _ _ _ _ hs]
      split_ifs <;> simp_all
    | GOING_DOWN =>
      rw [situpTransition_GOING_DOWN _ _ _ _ _ hs]
      split_ifs <;> simp_all <;> omega

/-- C3: over any frame sequence fed to a fresh analyzer, the number of
`GOING_DOWN → DOWN` transitions taken equals `correct_count +
incorrect_count` exactly: each completed cycle bumps exactly one of the two
counters and nothing else touches them. -/
theorem C3_cycle_closure (fs : List Frame) :
    countCloses SitUpAnalyzer.init fs =
      (runA SitUpAnalyzer.init fs).correct_count +
        (runA SitUpAnalyzer.init fs).incorrect_count := by
  suffices H : ∀ a : SitUpAnalyzer,
      a.correct_count + a.incorrect_count + countCloses a fs =
        (runA a fs).correct_count + (runA a fs).incorrect_count by
    simpa [SitUpAnalyzer.init] using H SitUpAnalyzer.init
  induction fs with
  | nil => intro a; simp [runA, countCloses]
  | cons f fs ih =>
    intro a
    simp only [runA, countCloses]
    rw [← ih (stepA a f)]
    have hstep := stepA_counters a f
    by_cases hind : a.state = PoseState.GOING_DOWN ∧ (stepA a f).state = PoseState.DOWN
    · rw [if_pos hind] at hstep ⊢
      omega
    · rw [if_neg hind] at hstep ⊢
      omega

/-! ### C6: which frames are processed -/

lemma situpTransition_feedback_ne (a : SitUpAnalyzer) (t : ℝ) (hip knee : ℤ × ℤ)
    (rd0 : RepData) (ids : List ℕ) :
    (situpTransition a t hip knee rd0).2.1 ≠ Feedback.missingKeypoints ids := by
  unfold situpTransition
  cases a.state <;> dsimp only <;> split_ifs <;> simp

/-- Counterexample to C6: a dict holding only the two shoulders and the two
ankles has 4 entries, so the frame is processed (here it even fires the
`DOWN → GOING_UP` transition), although just 2 of the 6 required landmarks
are present. -/
theorem C6_required_landmarks_counterexample :
    (requiredIds.filter fun i => kpAnkles.has i).length = 2 ∧
    (analyze_situp SitUpAnalyzer.init kpAnkles 240).1.state = PoseState.GOING_UP ∧
    (∀ ids, (analyze_situp SitUpAnalyzer.init kpAnkles 240).2.1
      ≠ Feedback.missingKeypoints ids) := by
  have hproc : ¬ kpAnkles.size < 4 := by decide
  have hang : torsoOf kpAnkles > UP_ANGLE_THRESHOLD := by
    rw [torsoOf_kpAnkles]
    norm_num [UP_ANGLE_THRESHOLD]
  refine ⟨by decide, ?_, ?_⟩
  · rw [analyze_situp_processed _ _ _ hproc]
    rw [situpTransition_DOWN _ _ _ _ _ rfl]
    rw [if_pos hang]
  · intro ids
    rw [analyze_situp_processed _ _ _ hproc]
    exact situpTransition_feedback_ne _ _ _ _ _ ids

/-- C6 (amended): a frame is processed exactly when its keypoint dict holds
at least 4 entries among the eight tracked ids — the ankles count toward the
threshold although they are not required — and each absent required landmark
is replaced by the `(0, 0)` placeholder before the midpoint and angle
computation. -/
theorem C6_landmark_threshold (a : SitUpAnalyzer) (kp : Keypoints) (fh : ℤ) :
    ((∀ ids, (analyze_situp a kp fh).2.1 ≠ Feedback.missingKeypoints ids) ↔ 4 ≤ kp.size) ∧
    (4 ≤ kp.size →
      (analyze_situp a kp fh).2.2.2 =
        calculate_torso_angle
          (toR (midpt ((kp.find 11).getD (0, 0)) ((kp.find 12).getD (0, 0))))
          (toR (midpt ((kp.find 23).getD (0, 0)) ((kp.find 24).getD (0, 0))))
          (toR (midpt ((kp.find 25).getD (0, 0)) ((kp.find 26).getD (0, 0))))) := by
  constructor
  · constructor
    · intro hne
      by_contra hlt
      rw [not_le] at hlt
      exact hne (missingOf kp) (by rw [analyze_situp_missing _ _ _ hlt])
    · intro hge ids
      rw [analyze_situp_processed _ _ _ (not_lt.mpr hge)]
      exact situpTransition_feedback_ne _ _ _ _ _ ids
  · intro hge
    rw [analyze_situp_processed _ _ _ (not_lt.mpr hge)]
    rfl

/-- Witness for the amended C6 on a full six-landmark frame. -/
theorem C6_landmark_threshold_witness :
    4 ≤ kp90.size ∧
    (∀ ids, (analyze_situp SitUpAnalyzer.init kp90 240).2.1
      ≠ Feedback.missingKeypoints ids) :=
  ⟨by decide, (C6_landmark_threshold SitUpAnalyzer.init kp90 240).1.mpr (by decide)⟩

end Situps
